import Mathlib

/-!
# fileup: shallow embedding of the staged image pipeline

This file models the four worker stages of the fileup repository
(Receiver, Labeler, Archiver, Purger) and their shared
subscription/topic setup helpers, translated from the Go sources:

* `src/pkg/receiver/receiver.go` (and the doc-commented revision in
  `src/unnamed/part_000`): `Receiver.ServeHTTP`, `purgeOldObjects`, `New`
* `src/pkg/labeler/labeler.go`: `Labeler.ReceiveAndProcess`,
  `labelImage`, `sendNotification`, `New`
* `src/pkg/archiver/archiver.go` (final revision, lines 306-483):
  `Archiver.ReceiveAndProcess`, `parseMessage`, `subscribe`, `writeToCloud`
* `src/purger/purger.go`: `Purger.ReceiveAndProcess`

External collaborators (minio local store, Google Cloud Storage, Vision
API, PubSub broker) are modelled as oracle functions supplied in an
environment record; each handler is a pure function from the delivered
message and the oracle outcomes to an outcome record that registers the
observable effects (acknowledge, store read/write attempts, publish
attempts, panics).  `GoErr` stands for Go's `error` values.
-/

namespace Fileup

/-- Go `error` values; we only ever inspect them for `nil`-ness, so a
string message suffices. -/
abbrev GoErr := String

/-! ## Go string helpers

`strings.Split(s, "/")` is modelled by `splitSlash` below (for the
non-empty separator `"/"` Go yields the runs between slashes, with
`"" ↦ [""]`, `"a/b" ↦ ["a","b"]`, `"a/b/c" ↦ ["a","b","c"]`).
`strings.Contains(s, sub)` is modelled by `goContains` below. -/

/-- Accumulator loop behind `splitSlash`: `acc` holds the characters of
the current segment in reverse. -/
def splitSlashAux : List Char → List Char → List String
  | [], acc => [String.mk acc.reverse]
  | c :: rest, acc =>
      if c = '/' then String.mk acc.reverse :: splitSlashAux rest []
      else splitSlashAux rest (c :: acc)

/-- Model of Go `strings.Split(s, "/")`: the (possibly empty) runs of
characters between the slashes of `s`, in order. -/
def splitSlash (s : String) : List String :=
  splitSlashAux s.toList []

/-- `listIsPre sub l` holds when `sub` is an initial run of `l`
(the helper behind the substring test of Go's `strings.Contains`). -/
def listIsPre : List Char → List Char → Bool
  | [], _ => true
  | _ :: _, [] => false
  | a :: as, b :: bs => a == b && listIsPre as bs

/-- `hasSubList sub l` holds when `sub` occurs contiguously inside `l`. -/
def hasSubList (sub : List Char) : List Char → Bool
  | [] => sub.isEmpty
  | c :: rest => listIsPre sub (c :: rest) || hasSubList sub rest

/-- Model of Go `strings.Contains(s, sub)`: `sub` occurs as a contiguous
(case-sensitive) substring of `s`. -/
def goContains (s sub : String) : Bool :=
  hasSubList sub.toList s.toList

/-! ## Receiver (`src/pkg/receiver/receiver.go`) -/

/-- The `*multipart.FileHeader` data `ServeHTTP` consults: the uploaded
file's name and its declared size (`header.Size`, an int64). -/
structure FileHeader where
  filename : String
  size : Int
deriving Repr, DecidableEq

/-- The opened multipart file; its contents are opaque to the handler, so
a string of bytes suffices. -/
abbrev FileStream := String

/-- Oracle outcomes for the Receiver's external calls:
`putObject` is minio's `PutObject` (returns the byte count written),
`publish` is `topic.Publish(...).Get(ctx)` (returns the server message id). -/
structure ReceiverEnv where
  putObject : String → String → FileStream → Except GoErr Int
  publish : String → Except GoErr String

/-- The observable outcome of one `ServeHTTP` call: the HTTP status
written (Go defaults to 200 when `WriteHeader` is never called), the
response body, and whether the store write / broker publish were
attempted. -/
structure HttpOutcome where
  status : Nat
  body : String
  storeWriteAttempted : Bool
  publishAttempted : Bool
deriving Repr, DecidableEq

/-- The incoming request, reduced to what `ServeHTTP` reads from it:
`formFile` is the result of `req.FormFile("file")`. -/
structure UploadRequest where
  formFile : Except GoErr (FileStream × FileHeader)

/-- Shallow embedding of `Receiver.ServeHTTP`
(`src/pkg/receiver/receiver.go` lines 95-144; identical logic in
`src/unnamed/part_000` lines 120-169): extract the multipart file, write
it to the local store, verify the written byte count against the declared
size, then publish the image-notification `"<bucket>/<filename>"` and
report success only once the broker confirms the publish.  Every failure
branch returns with status 500 before reaching the next step. -/
def serveHTTP (env : ReceiverEnv) (bucket : String) (req : UploadRequest) : HttpOutcome :=
  match req.formFile with
  | .error _ =>
      { status := 500, body := "Unable to extract file contents from request"
        storeWriteAttempted := false, publishAttempted := false }
  | .ok (file, header) =>
      match env.putObject bucket header.filename file with
      | .error _ =>
          { status := 500, body := "File upload failed"
            storeWriteAttempted := true, publishAttempted := false }
      | .ok n =>
          if n ≠ header.size then
            { status := 500, body := "File upload incomplete"
              storeWriteAttempted := true, publishAttempted := false }
          else
            match env.publish (bucket ++ "/" ++ header.filename) with
            | .error _ =>
                { status := 500, body := "Received notifcation failed"
                  storeWriteAttempted := true, publishAttempted := true }
            | .ok _ =>
                { status := 200
                  body := "File " ++ header.filename ++ " uploaded successfully.\n"
                  storeWriteAttempted := true, publishAttempted := true }

/-! ## Labeler (`src/pkg/labeler/labeler.go`) -/

/-- Oracle outcomes for the Labeler's external calls, in the order
`labelImage` makes them: minio `GetObject`, `vision.NewImageFromReader`,
`ImageAnnotatorClient.AnnotateImage` (top-3 label descriptions), and the
labeled-topic `Publish(...).Get(ctx)` of `sendNotification` applied to
the marshalled `LabeledImage{Location, Labels}`. -/
structure LabelerEnv where
  getObject : String → String → Except GoErr String
  newImageFromReader : String → Except GoErr String
  annotateImage : String → Except GoErr (List String)
  publish : String → List String → Except GoErr String

/-- Observable outcome of one delivery to the Labeler's message handler. -/
structure LabelerOutcome where
  acked : Bool
  fetchAttempted : Bool
  annotateAttempted : Bool
  publishAttempted : Bool
  publishedOk : Bool
deriving Repr, DecidableEq

/-- Shallow embedding of the message handler inside
`Labeler.ReceiveAndProcess` (`src/pkg/labeler/labeler.go` lines 96-124)
together with `labelImage` (lines 126-154) and `sendNotification`
(lines 156-173).  The Go handler opens with `defer m.Ack()`, so the
acknowledge runs on every return path — error paths included — which the
model reflects by setting `acked := true` in every branch.  The split of
`m.Data` on `"/"` must yield exactly two parts; the published
labeled-notification carries `Location = string(m.Data)` and the labels. -/
def labelerHandleMessage (env : LabelerEnv) (data : String) : LabelerOutcome :=
  match splitSlash data with
  | [bucket, image] =>
      match env.getObject bucket image with
      | .error _ =>
          { acked := true, fetchAttempted := true, annotateAttempted := false
            publishAttempted := false, publishedOk := false }
      | .ok obj =>
          match env.newImageFromReader obj with
          | .error _ =>
              { acked := true, fetchAttempted := true, annotateAttempted := false
                publishAttempted := false, publishedOk := false }
          | .ok img =>
              match env.annotateImage img with
              | .error _ =>
                  { acked := true, fetchAttempted := true, annotateAttempted := true
                    publishAttempted := false, publishedOk := false }
              | .ok labels =>
                  if labels.isEmpty then
                    { acked := true, fetchAttempted := true, annotateAttempted := true
                      publishAttempted := false, publishedOk := false }
                  else
                    match env.publish data labels with
                    | .error _ =>
                        { acked := true, fetchAttempted := true, annotateAttempted := true
                          publishAttempted := true, publishedOk := false }
                    | .ok _ =>
                        { acked := true, fetchAttempted := true, annotateAttempted := true
                          publishAttempted := true, publishedOk := true }
  | _ =>
      { acked := true, fetchAttempted := false, annotateAttempted := false
        publishAttempted := false, publishedOk := false }

/-! ## Receiver background sweep (`purgeOldObjects`) -/

/-- One entry of minio's `ListObjectsV2` stream: the object key, its
last-modified time, and a possible listing error (`obj.Err`).  Times and
durations are Go `int64` nanoseconds. -/
structure SweepObject where
  key : String
  lastModified : Int
  err : Option GoErr
deriving Repr, DecidableEq

/-- `time.Minute * 5` in nanoseconds, the retention window compared
against in `purgeOldObjects`. -/
def fiveMinutes : Int := 5 * 60 * 1000000000

/-- `time.Minute` in nanoseconds, for stating concrete instances. -/
def oneMinute : Int := 60 * 1000000000

/-- Shallow embedding of the sweep loop of `purgeOldObjects`
(`src/pkg/receiver/receiver.go` lines 35-54, identical in
`src/unnamed/part_000` lines 48-69): entries whose listing errored are
skipped (`continue`), and an object is removed exactly when
`now.Sub(obj.LastModified) > time.Minute * 5` (strict).  The function
returns the keys the sweep removes. -/
def purgeOldObjects (now : Int) : List SweepObject → List String
  | [] => []
  | o :: rest =>
      if o.err.isSome then purgeOldObjects now rest
      else if now - o.lastModified > fiveMinutes then
        o.key :: purgeOldObjects now rest
      else purgeOldObjects now rest

/-! ## Purger (`src/purger/purger.go`) -/

/-- Oracle outcome for the Purger's one external call, minio
`RemoveObject(bucket, key)`. -/
structure PurgerEnv where
  removeObject : String → String → Except GoErr Unit

/-- Observable outcome of one delivery to the Purger's handler. -/
structure PurgerOutcome where
  acked : Bool
  removeAttempted : Bool
  removedOk : Bool
  loggedError : Bool
deriving Repr, DecidableEq

/-- Shallow embedding of the handler inside `Purger.ReceiveAndProcess`
(`src/purger/purger.go` lines 70-90).  The handler opens with
`defer m.Ack()`, so every return path acknowledges.  A message that does
not split into exactly two `"/"`-separated parts is logged and dropped;
a `RemoveObject` failure (including object-not-found) is logged and the
handler returns normally — no retry, no escalation. -/
def purgerHandleMessage (env : PurgerEnv) (data : String) : PurgerOutcome :=
  match splitSlash data with
  | [bucket, image] =>
      match env.removeObject bucket image with
      | .error _ =>
          { acked := true, removeAttempted := true, removedOk := false
            loggedError := true }
      | .ok _ =>
          { acked := true, removeAttempted := true, removedOk := true
            loggedError := false }
  | _ =>
      { acked := true, removeAttempted := false, removedOk := false
        loggedError := true }

/-! ## Archiver (`src/pkg/archiver/archiver.go`, final revision) -/

/-- Decoded JSON values, as produced by Go's `json.Unmarshal` into an
`interface{}`: objects become `map[string]interface{}`, arrays
`[]interface{}`, strings `string`, numbers `float64`, booleans `bool`,
and `null` the nil interface. -/
inductive Json where
  | null
  | bool (b : Bool)
  | num (n : Int)
  | str (s : String)
  | arr (elems : List Json)
  | obj (fields : List (String × Json))
deriving Repr

/-- Go map lookup `m["k"]` for a decoded JSON object: a missing key
yields the nil interface, which we conflate with a `null` value — exactly
as Go does, since `json.Unmarshal` stores JSON `null` as nil. -/
def Json.lookup (k : String) : List (String × Json) → Option Json
  | [] => none
  | (k', v) :: rest => if k' = k then some v else Json.lookup k rest

/-- Result of `parseMessage`: a successful decode, a returned error
(logged and acknowledged by the caller), or a Go runtime panic from a
failed type assertion such as `df.(map[string]interface{})` or
`location.(string)`. -/
inductive ParseResult where
  | ok (bucket object : String) (labels : List String)
  | err (msg : GoErr)
  | panic
deriving Repr, DecidableEq

/-- `l.(string)` applied to each element of the labels array
(`archiver.go` lines 430-433): builds the `[]string`, panicking on any
non-string element. -/
def assertStrings : List Json → Option (List String)
  | [] => some []
  | .str s :: rest => (assertStrings rest).map (s :: ·)
  | _ :: _ => none

/-- Shallow embedding of `parseMessage` (`src/pkg/archiver/archiver.go`
lines 408-436).  The input is the result of `json.Unmarshal` into an
untyped `interface{}`: `none` when unmarshalling itself failed, otherwise
the decoded value.  The Go code then runtime-type-asserts its way through
the value: a non-object payload, a non-string non-null `location`, a
non-array non-null `labels`, or a non-string label element each trip a
type assertion and panic; a missing/null/empty `location` or `labels`
field and a location not splitting into exactly two `"/"`-separated
segments are returned as errors. -/
def parseMessage (msg : Option Json) : ParseResult :=
  match msg with
  | none => .err "unmarshal error"
  | some df =>
      match df with
      | .obj fields =>
          match Json.lookup "location" fields with
          | none | some .null => .err "empty location field"
          | some (.str location) =>
              if location.length = 0 then .err "empty location field"
              else
                match Json.lookup "labels" fields with
                | none | some .null => .err "empty labels field"
                | some (.arr labelVals) =>
                    if labelVals.isEmpty then .err "empty labels field"
                    else
                      match splitSlash location with
                      | [bucket, object] =>
                          match assertStrings labelVals with
                          | some ls => .ok bucket object ls
                          | none => .panic
                      | _ => .err "location must have format <bucket>/<object>"
                | some _ => .panic
          | some _ => .panic
      | _ => .panic

/-- Oracle outcomes for `writeToCloud` (`archiver.go` lines 459-482), in
call order: minio `GetObject`, `ioutil.ReadAll`, the cloud writer's
`Write`, and its `Close`. -/
structure ArchiverEnv where
  getObject : String → String → Except GoErr String
  readAll : String → Except GoErr String
  cloudWrite : String → String → String → Except GoErr Unit
  cloudClose : String → String → Except GoErr Unit

/-- Shallow embedding of `writeToCloud(mc, sc, logger, cb, lb, o)`:
read `lb/o` from the local store and write the bytes to cloud-bucket
`cb` under the same key `o`, the write counted done only when `Close`
succeeds. -/
def writeToCloud (env : ArchiverEnv) (cb lb o : String) : Except GoErr Unit := do
  let obj ← env.getObject lb o
  let bs ← env.readAll obj
  let _ ← env.cloudWrite cb o bs
  env.cloudClose cb o

/-- Observable outcome of one delivery to the Archiver's handler:
whether the (deferred) acknowledge ran, whether decode rejected the
message, whether a type assertion panicked, how many times the local
store was read and `writeToCloud` invoked, and whether the durable write
completed successfully. -/
structure ArchiverOutcome where
  acked : Bool
  parseRejected : Bool
  panicked : Bool
  localReads : Nat
  cloudWrites : Nat
  cloudWriteOk : Bool
deriving Repr, DecidableEq

/-- The label scan of `Archiver.ReceiveAndProcess` (`archiver.go` lines
394-401): walk the labels in order; at the first one containing the
target substring, call `writeToCloud` (logging any failure) and return —
labels after the first match are never examined.  When no label matches,
fall off the loop with no side effect. -/
def archiverScanLabels (env : ArchiverEnv) (cloudBucket bucket object target : String) :
    List String → ArchiverOutcome
  | [] =>
      { acked := true, parseRejected := false, panicked := false
        localReads := 0, cloudWrites := 0, cloudWriteOk := false }
  | l :: rest =>
      if goContains l target then
        match writeToCloud env cloudBucket bucket object with
        | .error _ =>
            { acked := true, parseRejected := false, panicked := false
              localReads := 1, cloudWrites := 1, cloudWriteOk := false }
        | .ok _ =>
            { acked := true, parseRejected := false, panicked := false
              localReads := 1, cloudWrites := 1, cloudWriteOk := true }
      else archiverScanLabels env cloudBucket bucket object target rest

/-- Shallow embedding of the handler inside `Archiver.ReceiveAndProcess`
(`src/pkg/archiver/archiver.go` lines 383-406, final revision).  The
handler opens with `defer m.Ack()`; Go runs deferred calls even while a
panic unwinds, so `acked` is true in every branch, including the panic
one — but a panicking handler still crashes the receiving process. -/
def archiverHandleMessage (env : ArchiverEnv) (cloudBucket target : String)
    (msg : Option Json) : ArchiverOutcome :=
  match parseMessage msg with
  | .panic =>
      { acked := true, parseRejected := false, panicked := true
        localReads := 0, cloudWrites := 0, cloudWriteOk := false }
  | .err _ =>
      { acked := true, parseRejected := true, panicked := false
        localReads := 0, cloudWrites := 0, cloudWriteOk := false }
  | .ok bucket object labels =>
      archiverScanLabels env cloudBucket bucket object target labels

/-! ## Broker setup helpers (`subscribe`, topic setup in `Receiver.New`) -/

/-- The broker's subscription state visible to `subscribe`: existing
subscriptions by name, each recording the topic it is bound to and its
ack-deadline in seconds; plus the set of existing topic names. -/
structure Broker where
  subs : List (String × String × Nat)
  topics : List String
deriving Repr, DecidableEq

/-- Names of the broker's existing subscriptions. -/
def Broker.subNames (b : Broker) : List String := b.subs.map (·.1)

/-- Shallow embedding of `subscribe(pc, subcription, topic)`
(`src/pkg/archiver/archiver.go` lines 438-457; the same
check-`Exists`-else-`CreateSubscription` shape appears in `Labeler.New`,
`Purger.New` and the first archiver revision): if a subscription of that
name exists it is reused unchanged, otherwise one is created bound to
`topic` with `AckDeadline: 60 * time.Second`.  Returns the broker state
afterwards and whether the call had to create. -/
def subscribe (b : Broker) (name topic : String) : Broker × Bool :=
  if name ∈ b.subNames then (b, false)
  else ({ b with subs := (name, topic, 60) :: b.subs }, true)

/-- Shallow embedding of the topic setup in `Receiver.New`
(`src/pkg/receiver/receiver.go` lines 76-88): `topic.Exists`, else
`CreateTopic` — the same check-exists-else-create pattern as
`subscribe`. -/
def ensureTopic (b : Broker) (name : String) : Broker × Bool :=
  if name ∈ b.topics then (b, false)
  else ({ b with topics := name :: b.topics }, true)

/-! ## Concrete environments for evaluating the models -/

/-- A Labeler environment whose local-store fetch always fails and whose
remaining collaborators are healthy. -/
def fetchFailEnv : LabelerEnv :=
  { getObject := fun _ _ => .error "connection refused"
    newImageFromReader := fun _ => .ok "img"
    annotateImage := fun _ => .ok ["cat"]
    publish := fun _ _ => .ok "id1" }

/-- A fully healthy Labeler environment. -/
def labelerOkEnv : LabelerEnv :=
  { getObject := fun _ _ => .ok "bytes"
    newImageFromReader := fun _ => .ok "img"
    annotateImage := fun _ => .ok ["cat", "tabby", "animal"]
    publish := fun _ _ => .ok "id1" }

/-- A healthy Receiver environment: the store reports 200 bytes written
and the broker confirms every publish. -/
def recvOkEnv : ReceiverEnv :=
  { putObject := fun _ _ _ => .ok 200
    publish := fun _ => .ok "mid7" }

/-- A Receiver environment whose store write is short: only 100 bytes
land regardless of the declared size. -/
def recvShortWriteEnv : ReceiverEnv :=
  { putObject := fun _ _ _ => .ok 100
    publish := fun _ => .ok "mid7" }

/-- A 200-byte upload request for `cat1.jpg`. -/
def catUpload : UploadRequest :=
  { formFile := .ok ("01234567", ⟨"cat1.jpg", 200⟩) }

/-- A fully healthy Archiver environment. -/
def archOkEnv : ArchiverEnv :=
  { getObject := fun _ _ => .ok "bytes"
    readAll := fun o => .ok o
    cloudWrite := fun _ _ _ => .ok ()
    cloudClose := fun _ _ => .ok () }

/-- A Purger environment for which every delete fails with
object-not-found. -/
def purgeFailEnv : PurgerEnv :=
  { removeObject := fun _ _ => .error "object not found" }

/-- The decoded labeled-notification
`{"location": "bucket/cat1.jpg", "labels": ["tabby", "cat"]}`. -/
def tabbyCatMsg : Option Json :=
  some (Json.obj
    [("location", Json.str "bucket/cat1.jpg"),
     ("labels", Json.arr [Json.str "tabby", Json.str "cat"])])

/-- The decoded payload `{"location": 7, "labels": ["x"]}` — valid JSON
whose `location` holds a number instead of a string. -/
def numberLocMsg : Option Json :=
  some (Json.obj [("location", Json.num 7), ("labels", Json.arr [Json.str "x"])])

/-- The decoded payload
`{"location": "a/b/c", "labels": ["x"]}`: well-typed fields, but the
location has three segments. -/
def badSegmentsMsg : Option Json :=
  some (Json.obj [("location", Json.str "a/b/c"), ("labels", Json.arr [Json.str "x"])])

/-! ## Theorems -/

/-- Helper: the Labeler's handler acknowledges every message, whatever
the environment does — the `defer m.Ack()` runs on every return path. -/
theorem labelerHandleMessage_acked (env : LabelerEnv) (data : String) :
    (labelerHandleMessage env data).acked = true := by
  unfold labelerHandleMessage
  repeat' (first | rfl | split)

/-- C1: the claim says any error before the final acknowledge leaves the
message unacknowledged for broker redelivery.  The code instead opens the
handler with `defer m.Ack()`, so the acknowledge runs on every return
path: the first conjunct shows the handler acknowledges every message in
every environment, and the second evaluates it on the concrete input
`"mybucket/cat.jpg"` in an environment whose local-store fetch fails —
the fetch was attempted and failed, nothing was published, and the
message was still acknowledged, so the broker will never redeliver it. -/
theorem labeler_acks_despite_fetch_failure :
    (∀ (env : LabelerEnv) (data : String), (labelerHandleMessage env data).acked = true) ∧
    labelerHandleMessage fetchFailEnv "mybucket/cat.jpg" =
      { acked := true, fetchAttempted := true, annotateAttempted := false
        publishAttempted := false, publishedOk := false } := by
  exact ⟨labelerHandleMessage_acked, by decide⟩

/-- C9: a delivered image-notification whose payload does not split into
exactly two `"/"`-separated segments is logged and acknowledged, and the
handler returns without fetching the object, without calling the
annotation service, and without attempting any downstream publish. -/
theorem labeler_rejects_bad_segment_count (env : LabelerEnv) (data : String)
    (h : (splitSlash data).length ≠ 2) :
    labelerHandleMessage env data =
      { acked := true, fetchAttempted := false, annotateAttempted := false
        publishAttempted := false, publishedOk := false } := by
  unfold labelerHandleMessage
  rcases hs : splitSlash data with _ | ⟨b, _ | ⟨i, _ | ⟨c, rest⟩⟩⟩
  · rfl
  · rfl
  · exact absurd (hs ▸ rfl) h
  · rfl

/-- Witness for C9 at the spec's own concrete inputs `"a"` and
`"a/b/c"`, in a fully healthy environment. -/
theorem labeler_rejects_bad_segment_count_witness :
    ((splitSlash "a").length ≠ 2 ∧
      labelerHandleMessage labelerOkEnv "a" =
        { acked := true, fetchAttempted := false, annotateAttempted := false
          publishAttempted := false, publishedOk := false }) ∧
    ((splitSlash "a/b/c").length ≠ 2 ∧
      labelerHandleMessage labelerOkEnv "a/b/c" =
        { acked := true, fetchAttempted := false, annotateAttempted := false
          publishAttempted := false, publishedOk := false }) :=
  ⟨⟨by decide, labeler_rejects_bad_segment_count labelerOkEnv "a" (by decide)⟩,
   ⟨by decide, labeler_rejects_bad_segment_count labelerOkEnv "a/b/c" (by decide)⟩⟩

/-- C7: the Purger acknowledges every delivered purge-notification
(first conjunct, any environment, any payload), and when the referenced
object's deletion fails — e.g. it never existed — the failure is logged
and the message is still acknowledged, never escalated into an
unacknowledged redelivery (second conjunct). -/
theorem purger_acks_even_on_delete_failure :
    (∀ (env : PurgerEnv) (data : String), (purgerHandleMessage env data).acked = true) ∧
    (∀ (env : PurgerEnv) (data bucket key : String) (e : GoErr),
      splitSlash data = [bucket, key] →
      env.removeObject bucket key = .error e →
      purgerHandleMessage env data =
        { acked := true, removeAttempted := true, removedOk := false
          loggedError := true }) := by
  constructor
  · intro env data
    unfold purgerHandleMessage
    repeat' (first | rfl | split)
  · intro env data bucket key e hsplit hrm
    unfold purgerHandleMessage
    rw [hsplit]
    simp only [hrm]

/-- Witness for C7: purging the non-existent `"bucket/ghost.jpg"` in an
environment where every delete fails with object-not-found still
acknowledges the message and logs (not escalates) the failure. -/
theorem purger_acks_even_on_delete_failure_witness :
    purgerHandleMessage purgeFailEnv "bucket/ghost.jpg" =
      { acked := true, removeAttempted := true, removedOk := false
        loggedError := true } :=
  purger_acks_even_on_delete_failure.2 purgeFailEnv "bucket/ghost.jpg"
    "bucket" "ghost.jpg" "object not found" (by decide) rfl

/-- C2: whenever the Receiver's handler attempts the image-notification
publish, the multipart form parse succeeded, the local store write
succeeded, and the written byte count equals the declared size — hence on
a form-parse failure, a store write failure, or a size mismatch the
handler returned before any publish call. -/
theorem receiver_publish_only_after_verified_write (env : ReceiverEnv) (bucket : String)
    (req : UploadRequest) (h : (serveHTTP env bucket req).publishAttempted = true) :
    ∃ (file : FileStream) (header : FileHeader) (n : Int),
      req.formFile = .ok (file, header) ∧
      env.putObject bucket header.filename file = .ok n ∧ n = header.size := by
  unfold serveHTTP at h
  cases hf : req.formFile with
  | error e => rw [hf] at h; simp at h
  | ok p =>
      obtain ⟨file, header⟩ := p
      rw [hf] at h
      cases hp : env.putObject bucket header.filename file with
      | error e => simp [hp] at h
      | ok n =>
          simp only [hp] at h
          by_cases hn : n = header.size
          · exact ⟨file, header, n, rfl, hp, hn⟩
          · simp [hn] at h

/-- Witness for C2: a healthy 200-byte upload does attempt the publish,
and the theorem then produces the verified write behind it. -/
theorem receiver_publish_only_after_verified_write_witness :
    (serveHTTP recvOkEnv "inbucket" catUpload).publishAttempted = true ∧
    ∃ (file : FileStream) (header : FileHeader) (n : Int),
      catUpload.formFile = .ok (file, header) ∧
      recvOkEnv.putObject "inbucket" header.filename file = .ok n ∧ n = header.size :=
  ⟨by decide,
   receiver_publish_only_after_verified_write recvOkEnv "inbucket" catUpload (by decide)⟩

/-- C3: once the form parse and the store write have gone through, a
byte count differing from the declared size yields a 500 response with no
publish attempt, while an exact byte count followed by a confirmed
publish yields the success response `"File <name> uploaded
successfully."`. -/
theorem receiver_size_mismatch_rejected (env : ReceiverEnv) (bucket : String)
    (req : UploadRequest) (file : FileStream) (header : FileHeader) (n : Int)
    (hf : req.formFile = .ok (file, header))
    (hp : env.putObject bucket header.filename file = .ok n) :
    (n ≠ header.size →
      serveHTTP env bucket req =
        { status := 500, body := "File upload incomplete"
          storeWriteAttempted := true, publishAttempted := false }) ∧
    (n = header.size →
      ∀ mid, env.publish (bucket ++ "/" ++ header.filename) = .ok mid →
      serveHTTP env bucket req =
        { status := 200
          body := "File " ++ header.filename ++ " uploaded successfully.\n"
          storeWriteAttempted := true, publishAttempted := true }) := by
  constructor
  · intro hn
    unfold serveHTTP
    rw [hf]
    simp [hp, hn]
  · intro hn mid hpub
    unfold serveHTTP
    rw [hf]
    simp [hp, hn, hpub]

/-- Witness for C3: with a declared size of 200 bytes, a store write
landing only 100 bytes produces the 500 outcome with no publish, and a
full 200-byte write with a confirmed publish produces the success
response for `cat1.jpg`. -/
theorem receiver_size_mismatch_rejected_witness :
    serveHTTP recvShortWriteEnv "inbucket" catUpload =
      { status := 500, body := "File upload incomplete"
        storeWriteAttempted := true, publishAttempted := false } ∧
    serveHTTP recvOkEnv "inbucket" catUpload =
      { status := 200, body := "File cat1.jpg uploaded successfully.\n"
        storeWriteAttempted := true, publishAttempted := true } :=
  ⟨(receiver_size_mismatch_rejected recvShortWriteEnv "inbucket" catUpload
      "01234567" ⟨"cat1.jpg", 200⟩ 100 rfl rfl).1 (by decide),
   (receiver_size_mismatch_rejected recvOkEnv "inbucket" catUpload
      "01234567" ⟨"cat1.jpg", 200⟩ 200 rfl rfl).2 rfl "mid7" rfl⟩

/-- Helper: the Archiver's label scan performs at most one
`writeToCloud` call and always ends with the message acknowledged. -/
theorem archiverScanLabels_writes_le_one (env : ArchiverEnv) (cb b o target : String) :
    ∀ labels : List String,
      (archiverScanLabels env cb b o target labels).cloudWrites ≤ 1 ∧
      (archiverScanLabels env cb b o target labels).acked = true := by
  intro labels
  induction labels with
  | nil => exact ⟨Nat.zero_le 1, rfl⟩
  | cons l rest ih =>
      unfold archiverScanLabels
      split
      · split
        · exact ⟨Nat.le_refl 1, rfl⟩
        · exact ⟨Nat.le_refl 1, rfl⟩
      · exact ih

/-- C10: on any delivered payload the Archiver invokes `writeToCloud` at
most once — the scan returns right after the first label containing the
target, so further matching labels never cause a second copy — and the
handler always ends with the message acknowledged, a durable-write
failure included. -/
theorem archiver_at_most_one_cloud_write (env : ArchiverEnv) (cb target : String)
    (msg : Option Json) :
    (archiverHandleMessage env cb target msg).cloudWrites ≤ 1 ∧
    (archiverHandleMessage env cb target msg).acked = true := by
  unfold archiverHandleMessage
  cases parseMessage msg with
  | panic => exact ⟨Nat.zero_le 1, rfl⟩
  | err e => exact ⟨Nat.zero_le 1, rfl⟩
  | ok b o labels => exact archiverScanLabels_writes_le_one env cb b o target labels

/-- Helper: with a succeeding durable write, the label scan completes a
cloud copy exactly when some label contains the target substring, and a
scan with no matching label touches nothing and just acknowledges. -/
theorem archiverScanLabels_match_iff (env : ArchiverEnv) (cb b o target : String)
    (hw : writeToCloud env cb b o = .ok ()) :
    ∀ labels : List String,
      ((archiverScanLabels env cb b o target labels).cloudWriteOk = true ↔
        ∃ l ∈ labels, goContains l target = true) ∧
      ((∀ l ∈ labels, goContains l target = false) →
        archiverScanLabels env cb b o target labels =
          { acked := true, parseRejected := false, panicked := false
            localReads := 0, cloudWrites := 0, cloudWriteOk := false }) := by
  intro labels
  induction labels with
  | nil =>
      refine ⟨?_, fun _ => rfl⟩
      simp [archiverScanLabels]
  | cons l rest ih =>
      unfold archiverScanLabels
      by_cases hb : goContains l target = true
      · rw [if_pos hb, hw]
        constructor
        · exact ⟨fun _ => ⟨l, List.mem_cons_self l rest, hb⟩, fun _ => rfl⟩
        · intro hall
          exact absurd (hall l (List.mem_cons_self l rest)) (by simp [hb])
      · rw [if_neg hb]
        constructor
        · constructor
          · intro hok
            obtain ⟨x, hx, hpx⟩ := ih.1.mp hok
            exact ⟨x, List.mem_cons_of_mem l hx, hpx⟩
          · rintro ⟨x, hx, hpx⟩
            apply ih.1.mpr
            rcases List.mem_cons.mp hx with h1 | h2
            · exact absurd (h1 ▸ hpx) hb
            · exact ⟨x, h2, hpx⟩
        · intro hall
          exact ih.2 fun x hx => hall x (List.mem_cons_of_mem l hx)

/-- C4: for a decoded labeled-notification and a healthy durable store,
the Archiver completes the durable copy exactly when at least one label
contains the configured target as a case-sensitive substring, and when no
label matches it acknowledges with no local-store read and no durable
write. -/
theorem archiver_copies_iff_label_matches (env : ArchiverEnv) (cb target : String)
    (msg : Option Json) (b o : String) (labels : List String)
    (hparse : parseMessage msg = .ok b o labels)
    (hw : writeToCloud env cb b o = .ok ()) :
    ((archiverHandleMessage env cb target msg).cloudWriteOk = true ↔
      ∃ l ∈ labels, goContains l target = true) ∧
    ((∀ l ∈ labels, goContains l target = false) →
      archiverHandleMessage env cb target msg =
        { acked := true, parseRejected := false, panicked := false
          localReads := 0, cloudWrites := 0, cloudWriteOk := false }) := by
  unfold archiverHandleMessage
  rw [hparse]
  exact archiverScanLabels_match_iff env cb b o target hw labels

/-- Witness for C4 at the spec's own instance: labels
`["tabby", "cat"]` with target `"cat"` complete the durable copy, and
with target `"dog"` the handler acknowledges with no read and no
write. -/
theorem archiver_copies_iff_label_matches_witness :
    (archiverHandleMessage archOkEnv "gcs" "cat" tabbyCatMsg).cloudWriteOk = true ∧
    archiverHandleMessage archOkEnv "gcs" "dog" tabbyCatMsg =
      { acked := true, parseRejected := false, panicked := false
        localReads := 0, cloudWrites := 0, cloudWriteOk := false } :=
  ⟨(archiver_copies_iff_label_matches archOkEnv "gcs" "cat" tabbyCatMsg
      "bucket" "cat1.jpg" ["tabby", "cat"] (by decide) rfl).1.mpr
      ⟨"cat", by decide, by decide⟩,
   (archiver_copies_iff_label_matches archOkEnv "gcs" "dog" tabbyCatMsg
      "bucket" "cat1.jpg" ["tabby", "cat"] (by decide) rfl).2 (by decide)⟩

/-- C5 counterexample: the claim says every malformed payload — wrongly
typed JSON values included — is rejected by logging and acknowledging,
never crashing.  But on the valid-JSON payload
`{"location": 7, "labels": ["x"]}` the decode's `location.(string)` type
assertion panics: the handler crashes instead of rejecting. -/
theorem archiver_panics_on_wrongly_typed_payload :
    (archiverHandleMessage archOkEnv "gcs" "cat" numberLocMsg).panicked = true ∧
    (archiverHandleMessage archOkEnv "gcs" "cat" numberLocMsg).parseRejected = false := by
  decide

/-- C5 as amended: whenever the decode step returns an error — i.e. on
JSON-unmarshal failures, missing/null/empty `location` or `labels`
fields, or a location that does not split into exactly two segments — the
Archiver logs and acknowledges the message with no local read, no durable
write, no retry, and no panic.  (Wrongly typed JSON values are excluded:
they panic the type assertions instead.) -/
theorem archiver_rejects_gracefully_malformed (env : ArchiverEnv) (cb target : String)
    (msg : Option Json) (e : GoErr) (hp : parseMessage msg = .err e) :
    archiverHandleMessage env cb target msg =
      { acked := true, parseRejected := true, panicked := false
        localReads := 0, cloudWrites := 0, cloudWriteOk := false } := by
  unfold archiverHandleMessage
  rw [hp]

/-- Witness for amended C5: the well-typed payload whose location is
`"a/b/c"` is decoded to an error and duly rejected — logged and
acknowledged with no side effect. -/
theorem archiver_rejects_gracefully_malformed_witness :
    parseMessage badSegmentsMsg = .err "location must have format <bucket>/<object>" ∧
    archiverHandleMessage archOkEnv "gcs" "cat" badSegmentsMsg =
      { acked := true, parseRejected := true, panicked := false
        localReads := 0, cloudWrites := 0, cloudWriteOk := false } :=
  ⟨by decide,
   archiver_rejects_gracefully_malformed archOkEnv "gcs" "cat" badSegmentsMsg
     "location must have format <bucket>/<object>" (by decide)⟩

/-- C6: a sweep pass removes exactly the (listable) objects whose age at
sweep start strictly exceeds five minutes — the first conjunct gives the
removed keys as a filter of the listing on
`now - lastModified > 5 minutes`, and the second instantiates the spec's
example: an object last modified 6 minutes before the sweep is removed
while one modified 4 minutes before is retained. -/
theorem sweep_removes_exactly_expired :
    (∀ (now : Int) (objs : List SweepObject),
      purgeOldObjects now objs =
        (objs.filter fun o =>
          o.err.isNone && decide (fiveMinutes < now - o.lastModified)).map (·.key)) ∧
    (∀ now : Int,
      purgeOldObjects now
        [⟨"old", now - 6 * oneMinute, none⟩, ⟨"fresh", now - 4 * oneMinute, none⟩] =
        ["old"]) := by
  constructor
  · intro now objs
    induction objs with
    | nil => rfl
    | cons o rest ih =>
        unfold purgeOldObjects
        cases he : o.err with
        | some e => simp [List.filter, he, ih]
        | none =>
            by_cases ht : fiveMinutes < now - o.lastModified
            · simp [List.filter, he, ht, ih]
            · simp [List.filter, he, ht, ih]
  · intro now
    simp only [purgeOldObjects, Option.isSome_none, Bool.false_eq_true, if_false]
    norm_num [fiveMinutes, oneMinute]

/-- C8: `subscribe` is check-exists-else-create, hence idempotent: from a
broker without the subscription, the first call creates it bound to its
topic with the fixed 60-second ack-deadline, and a second call with the
same name reuses it — the broker is unchanged, nothing is created, and
exactly one subscription of that name exists.  The topic-setup helper
follows the same pattern: re-ensuring a topic leaves the broker
unchanged. -/
theorem subscribe_idempotent (b : Broker) (name topic tname : String)
    (h : name ∉ b.subNames) :
    subscribe (subscribe b name topic).1 name topic = ((subscribe b name topic).1, false) ∧
    (((subscribe b name topic).1).subs.filter fun s => s.1 = name).length = 1 ∧
    (name, topic, 60) ∈ ((subscribe b name topic).1).subs ∧
    ensureTopic (ensureTopic b tname).1 tname = ((ensureTopic b tname).1, false) := by
  have hb1 : (subscribe b name topic).1 =
      { b with subs := (name, topic, 60) :: b.subs } := by
    unfold subscribe
    rw [if_neg h]
  refine ⟨?_, ?_, ?_, ?_⟩
  · rw [hb1]
    unfold subscribe
    rw [if_pos ?_]
    show name ∈ Broker.subNames _
    unfold Broker.subNames
    exact List.mem_map.mpr ⟨(name, topic, 60), List.mem_cons_self _ _, rfl⟩
  · rw [hb1]
    have hrest : (b.subs.filter fun s => s.1 = name) = [] := by
      rw [List.filter_eq_nil_iff]
      intro s hs hsn
      exact h (List.mem_map.mpr ⟨s, hs, by simpa using hsn⟩)
    simp [List.filter, hrest]
  · rw [hb1]
    exact List.mem_cons_self _ _
  · by_cases ht : tname ∈ b.topics
    · unfold ensureTopic
      rw [if_pos ht]
      rw [if_pos ht]
    · unfold ensureTopic
      rw [if_neg ht]
      have : tname ∈ ({ b with topics := tname :: b.topics } : Broker).topics :=
        List.mem_cons_self _ _
      rw [if_pos this]

/-- Witness for C8: starting from an empty broker, ensuring the
subscription `"proj%images"` on topic `"images"` twice leaves one
60-second-deadline subscription and the second call creates nothing;
likewise for re-ensuring topic `"images"`. -/
theorem subscribe_idempotent_witness :
    "proj%images" ∉ (Broker.mk [] []).subNames ∧
    (subscribe (subscribe ⟨[], []⟩ "proj%images" "images").1 "proj%images" "images" =
        ((subscribe ⟨[], []⟩ "proj%images" "images").1, false) ∧
      (((subscribe ⟨[], []⟩ "proj%images" "images").1).subs.filter
          fun s => s.1 = "proj%images").length = 1 ∧
      ("proj%images", "images", 60) ∈ ((subscribe ⟨[], []⟩ "proj%images" "images").1).subs ∧
      ensureTopic (ensureTopic ⟨[], []⟩ "images").1 "images" =
        ((ensureTopic ⟨[], []⟩ "images").1, false)) :=
  ⟨by decide, subscribe_idempotent ⟨[], []⟩ "proj%images" "images" "images" (by decide)⟩

end Fileup
